import Mathlib

/-
Verification of impeller/aiks/image.h (namespace impeller, class Image).

The header declares:

  class Image {
   public:
    Image();
    ~Image();
   private:
    FML_DISALLOW_COPY_AND_ASSIGN(Image);
  };

We embed the class declaration as a record over the special-member statuses
and member lists, and the run-time behaviour of construction / destruction
as explicit state-passing functions.
-/

namespace ImageSpec

/-- Visibility of a member of a C++ class. -/
inductive Visibility
  | pub
  | priv
  deriving DecidableEq, Repr

/-- Status of a special member function in a class declaration.  In C++ a
deleted function still counts as user-declared (it participates in overload
resolution and suppresses implicit move generation); `absent` means the
member is not declared in the class at all. -/
inductive SpecialMember
  | declared
  | deleted
  | absent
  deriving DecidableEq, Repr

/-- A special member is user-declared when it appears in the class body,
whether as a declaration or as a deleted definition. -/
def SpecialMember.userDeclared : SpecialMember → Bool
  | .absent => false
  | _ => true

/-- The part of a C++ class declaration relevant here: its non-static data
members, its public member functions other than special members, and the
status and visibility of each special member function. -/
structure ClassDecl where
  name : String
  dataMembers : List String
  publicMethods : List String
  defaultCtor : SpecialMember
  defaultCtorVis : Visibility
  dtor : SpecialMember
  dtorVis : Visibility
  copyCtor : SpecialMember
  copyAssign : SpecialMember
  moveCtor : SpecialMember
  moveAssign : SpecialMember
  deriving DecidableEq, Repr

/-- Shallow embedding of the declaration of `impeller::Image` in
impeller/aiks/image.h.  The public section declares `Image();` and
`~Image();` and nothing else; the class has no data members.  Modelled from
the spec: the header's private section invokes FML_DISALLOW_COPY_AND_ASSIGN
(defined in flutter/fml/macros.h, which is not part of the supplied source);
per the spec it disables copy construction and copy assignment, i.e. it
expands to a deleted copy constructor and a deleted copy-assignment
operator.  No move constructor or move-assignment operator is declared. -/
def Image_decl : ClassDecl :=
  { name := "Image"
    dataMembers := []
    publicMethods := []
    defaultCtor := .declared
    defaultCtorVis := .pub
    dtor := .declared
    dtorVis := .pub
    copyCtor := .deleted
    copyAssign := .deleted
    moveCtor := .absent
    moveAssign := .absent }

/-- A class is copy-constructible when its copy constructor (user-provided
or implicitly declared) is not deleted. -/
def copyConstructible (c : ClassDecl) : Bool :=
  !(c.copyCtor == .deleted)

/-- A class is copy-assignable when its copy-assignment operator is not
deleted. -/
def copyAssignable (c : ClassDecl) : Bool :=
  !(c.copyAssign == .deleted)

/-- C++ implicit-move rule: an implicit move constructor is declared only
when the class has no user-declared copy constructor, copy-assignment
operator, move-assignment operator, or destructor. -/
def implicitMoveCtorDeclared (c : ClassDecl) : Bool :=
  !c.moveCtor.userDeclared && !c.copyCtor.userDeclared &&
    !c.copyAssign.userDeclared && !c.moveAssign.userDeclared &&
    !c.dtor.userDeclared

/-- C++ implicit-move rule for assignment: an implicit move-assignment
operator is declared only when the class has no user-declared copy
constructor, copy-assignment operator, move constructor, or destructor. -/
def implicitMoveAssignDeclared (c : ClassDecl) : Bool :=
  !c.moveAssign.userDeclared && !c.copyCtor.userDeclared &&
    !c.copyAssign.userDeclared && !c.moveCtor.userDeclared &&
    !c.dtor.userDeclared

/-- A class is move-constructible when it has a usable move constructor
(explicit and not deleted, or implicitly declared), or, failing that, when
an rvalue can fall back to a non-deleted copy constructor. -/
def moveConstructible (c : ClassDecl) : Bool :=
  if c.moveCtor.userDeclared then c.moveCtor == .declared
  else if implicitMoveCtorDeclared c then true
  else copyConstructible c

/-- A class is move-assignable when it has a usable move-assignment operator
(explicit and not deleted, or implicitly declared), or, failing that, when
an rvalue can fall back to a non-deleted copy-assignment operator. -/
def moveAssignable (c : ClassDecl) : Bool :=
  if c.moveAssign.userDeclared then c.moveAssign == .declared
  else if implicitMoveAssignDeclared c then true
  else copyAssignable c

/-- Run-time state of an `impeller::Image` object.  The class declares no
non-static data members, so the object state carries no information. -/
structure ImageObj where
  deriving DecidableEq, Repr

/-- Modelled from the spec: the body of `Image::Image` lives in image.cc,
which is not part of the supplied source; the spec states that construction
has default (no-op) semantics and cannot fail.  Construction over an
arbitrary ambient program state `s` yields the trivial object state, leaves
`s` unchanged, and always succeeds (never returns `none`). -/
def constructImage (σ : Type) (s : σ) : Option (ImageObj × σ) :=
  some (⟨⟩, s)

/-- Modelled from the spec: the body of `Image::~Image` lives in image.cc,
which is not part of the supplied source; the spec states that destruction
has default (no-op) semantics and cannot fail.  Destruction leaves the
ambient program state unchanged and always succeeds. -/
def destructImage (σ : Type) (_obj : ImageObj) (s : σ) : Option σ :=
  some s

/-- C1: the Image type provides no usable copy constructor and no usable
copy-assignment operator, so no copy of an Image can be made. -/
theorem image_not_copyable :
    copyConstructible Image_decl = false ∧ copyAssignable Image_decl = false := by
  decide

/-- C2: constructing an Image always succeeds and destructing an Image
always succeeds, and the class exposes no other public member function (so
no other operation could fail). -/
theorem image_ctor_dtor_total (σ : Type) (s : σ) (obj : ImageObj) :
    (constructImage σ s).isSome = true ∧
      (destructImage σ obj s).isSome = true ∧
      Image_decl.publicMethods = [] :=
  ⟨rfl, rfl, rfl⟩

/-- C3: construction and destruction of an Image have no-op semantics: for
every ambient program state, construction returns the trivial object state
with the ambient state unchanged, and destruction returns the ambient state
unchanged. -/
theorem image_ctor_dtor_noop (σ : Type) (s : σ) (obj : ImageObj) :
    constructImage σ s = some (⟨⟩, s) ∧ destructImage σ obj s = some s :=
  ⟨rfl, rfl⟩

/-- C4: the Image class declares no data members, and its state type is
trivial: any two Image object states are equal, so no predicate on Image
state can distinguish states or be violated by any operation. -/
theorem image_no_attributes :
    Image_decl.dataMembers = [] ∧ ∀ a b : ImageObj, a = b := by
  refine ⟨rfl, fun a b => ?_⟩
  cases a
  cases b
  rfl

/-- C5: the public interface of Image consists solely of a default
constructor and a destructor, both public: there are no other public member
functions and no data members (in particular no public fields). -/
theorem image_interface_minimal :
    Image_decl.publicMethods = [] ∧ Image_decl.dataMembers = [] ∧
      Image_decl.defaultCtor = .declared ∧ Image_decl.defaultCtorVis = .pub ∧
      Image_decl.dtor = .declared ∧ Image_decl.dtorVis = .pub := by
  decide

/-- C6: Image involves no shared state or concurrency primitives: the class
declares no data members at all (hence no mutexes, atomics, or other shared
state), and neither construction nor destruction reads or writes the
ambient program state shared with the rest of the program. -/
theorem image_no_shared_state (σ : Type) (s : σ) (obj : ImageObj) :
    Image_decl.dataMembers = [] ∧
      (constructImage σ s).map Prod.snd = some s ∧
      destructImage σ obj s = some s :=
  ⟨rfl, rfl, rfl⟩

/-- C7: Image is fully immobile: it is neither move-constructible nor
move-assignable (the deleted copy operations and the user-declared
destructor suppress the implicit moves, and the copy fallback is deleted),
and it is not copy-constructible either, so no transfer of an Image to
another Image object is possible. -/
theorem image_immobile :
    moveConstructible Image_decl = false ∧
      moveAssignable Image_decl = false ∧
      implicitMoveCtorDeclared Image_decl = false ∧
      implicitMoveAssignDeclared Image_decl = false ∧
      copyConstructible Image_decl = false := by
  decide

/-- C8: constructing an Image and then destructing it is the identity on
every other part of the program state: for every ambient state, the
construct-then-destruct sequence returns that state unchanged. -/
theorem image_lifecycle_frame (σ : Type) (s : σ) :
    (constructImage σ s).bind (fun p => destructImage σ p.1 p.2) = some s :=
  rfl

/-- C9: Image construction is deterministic and input-independent: from any
ambient state the constructor yields the one trivial object state, and any
two Image object states are mapped to the same result by every context that
observes the object (rather than its identity). -/
theorem image_construction_deterministic (σ τ : Type) (s : σ) (t : τ)
    {α : Type} (C : ImageObj → α) (a b : ImageObj) :
    (constructImage σ s).map Prod.fst = some ⟨⟩ ∧
      (constructImage τ t).map Prod.fst = some ⟨⟩ ∧
      C a = C b := by
  refine ⟨rfl, rfl, ?_⟩
  cases a
  cases b
  rfl

end ImageSpec
